import Mathlib

/-!
Verification of the Automaton Auditor dialectical synthesis engine.

This file gives a shallow embedding of the data model (`src/state.py`), the
Chief Justice synthesis engine (`src/nodes/justice.py`) and the evidence
collection error paths (`src/nodes/detectives.py`), and proves or refutes
the behavioural claims about them.

Modelling conventions:
* Python strings are Lean `String`s (all data involved is ASCII, so
  `Char.toLower` agrees with Python `str.lower` and `List.length` of the
  character list agrees with Python `len`).
* Pydantic validation is modelled as a function `... → Option ...` returning
  `some` of the normalised record exactly when every field constraint,
  field validator and model validator of the source accepts, and `none`
  when any of them raises.  Nested model instances are not re-validated by
  pydantic when already constructed (its default), so the record validators
  here do not recurse; individual constructibility is a separate predicate.
* Python floats are modelled as exact rationals together with an explicit
  correct-rounding operation `dbl` (round to nearest double, ties to even),
  valid on the normal range that covers every intermediate value of the
  weighted-average computation.  Decimal literals such as `0.3` are mapped
  through `dbl` to the exact value of the corresponding IEEE-754 double.
* Python `re` usage in the validators is alternation of string literals,
  modelled as substring containment.
-/

/-! ## String helpers -/

-- Batteries marks the `Rat` arithmetic operations `@[irreducible]`, which
-- blocks `decide`-style evaluation of the concrete rational computations in
-- this development; restore the default reducibility locally.
attribute [local semireducible] Rat.mul Rat.add Rat.sub Rat.inv

/-- Character-list match of `needle` at the head of `hay`. -/
def matchesAt : List Char → List Char → Bool
  | [], _ => true
  | _ :: _, [] => false
  | n :: ns, h :: hs => n == h && matchesAt ns hs

/-- Does `needle` occur anywhere in `hay` (character lists)? -/
def subOccurs (needle : List Char) : List Char → Bool
  | [] => needle.isEmpty
  | c :: rest => matchesAt needle (c :: rest) || subOccurs needle rest

/-- Python `needle in hay` for strings. -/
def strContains (hay needle : String) : Bool :=
  subOccurs needle.data hay.data

/-- Does `hay` contain any of the given literals (case sensitive)? -/
def containsAny (hay : String) (needles : List String) : Bool :=
  needles.any (fun n => strContains hay n)

/-- Python `str.lower` (ASCII data). -/
def lowerStr (s : String) : String :=
  ⟨s.data.map Char.toLower⟩

/-- Does `hay` contain any of the given lowercase literals, ignoring case? -/
def containsAnyLower (hay : String) (needles : List String) : Bool :=
  containsAny (lowerStr hay) needles

/-- Python `str.strip`: drop whitespace from both ends. -/
def stripStr (s : String) : String :=
  ⟨((s.data.dropWhile Char.isWhitespace).reverse.dropWhile Char.isWhitespace).reverse⟩

/-- Python `len` on a string. -/
def strLen (s : String) : Nat :=
  s.data.length

/-- Split at the first occurrence of `sep`: `some (before, after)` when
`sep` occurs, `none` otherwise (character lists). -/
def splitFirstAux (sep : List Char) : List Char → Option (List Char × List Char)
  | [] => none
  | c :: rest =>
    if matchesAt sep (c :: rest) then some ([], (c :: rest).drop sep.length)
    else (splitFirstAux sep rest).map (fun pr => (c :: pr.1, pr.2))

/-- Split a string at the first occurrence of a separator. -/
def splitFirst (s sep : String) : Option (String × String) :=
  (splitFirstAux sep.data s.data).map (fun pr => (⟨pr.1⟩, ⟨pr.2⟩))

/-- Character class of the criterion-id pattern `[a-z0-9_]`. -/
def idChar (c : Char) : Bool :=
  (('a' ≤ c) && (c ≤ 'z')) || (('0' ≤ c) && (c ≤ '9')) || c == '_'

/-- Python `re.match` of `[a-z0-9_]+` anchored at both ends. -/
def idPatternOk (s : String) : Bool :=
  !s.data.isEmpty && s.data.all idChar

/-! ## Data model (`src/state.py`) -/

/-- The closed set of judge personas (`JudicialOpinion.judge` literal type). -/
inductive Judge where
  | Prosecutor
  | Defense
  | TechLead
deriving DecidableEq, Repr

/-- Evidence record collected by the detectives (`state.py`, `Evidence`).
Confidence is an exact rational standing for the Python float. -/
structure Evidence where
  criterion_id : String
  goal : String
  found : Bool
  content : Option String
  location : String
  rationale : String
  confidence : ℚ
deriving DecidableEq, Repr

/-- Scored judgment of one persona (`state.py`, `JudicialOpinion`). -/
structure JudicialOpinion where
  judge : Judge
  criterion_id : String
  score : ℤ
  argument : String
  cited_evidence : List String
deriving DecidableEq, Repr

/-- Synthesised outcome for one rubric dimension (`state.py`,
`CriterionResult`).  The source model has exactly these six fields; in
particular there is no audit-trail field of applied rule names. -/
structure CriterionResult where
  dimension_id : String
  dimension_name : String
  final_score : ℤ
  judge_opinions : List JudicialOpinion
  dissent_summary : Option String
  remediation : String
deriving DecidableEq, Repr

/-- Whole-repository outcome (`state.py`, `AuditReport`). -/
structure AuditReport where
  repo_url : String
  executive_summary : String
  overall_score : ℚ
  criteria : List CriterionResult
  remediation_plan : String
deriving DecidableEq, Repr

/-! ## Evidence validation (`state.py` lines 24-123) -/

/-- Pydantic `Field` constraints of `Evidence`. -/
def evidenceFieldOk (e : Evidence) : Bool :=
  (1 ≤ strLen e.criterion_id) && (strLen e.criterion_id ≤ 100) &&
  (10 ≤ strLen e.goal) && (strLen e.goal ≤ 500) &&
  (match e.content with
   | none => true
   | some c => strLen c ≤ 10000) &&
  (1 ≤ strLen e.location) && (strLen e.location ≤ 500) &&
  (20 ≤ strLen e.rationale) && (strLen e.rationale ≤ 2000) &&
  decide ((0 : ℚ) ≤ e.confidence) && decide (e.confidence ≤ 1)

/-- `Evidence.validate_criterion_id`. -/
def evidenceCriterionIdOk (v : String) : Bool :=
  !v.data.isEmpty && !(stripStr v).data.isEmpty &&
  idPatternOk v &&
  (strLen v ≤ 100)

/-- Keywords one of which `Evidence.validate_rationale` requires. -/
def methodKeywords : List String :=
  ["ast", "git", "regex", "parsed", "extracted", "verified", "confirmed",
   "analyzed", "checked"]

/-- `Evidence.validate_rationale` (the stored value is the stripped one). -/
def evidenceRationaleOk (v : String) : Bool :=
  (20 ≤ strLen (stripStr v)) &&
  containsAnyLower v methodKeywords

/-- Python truthiness of an optional string (`None` and `""` are falsy). -/
def optStrTruthy : Option String → Bool
  | none => false
  | some s => !s.data.isEmpty

/-- `Evidence.validate_confidence_rationale` (model validator, run on the
record whose rationale has already been stripped). -/
def evidenceModelOk (e : Evidence) : Bool :=
  !(decide ((7 : ℚ)/10 < e.confidence) && decide (strLen e.rationale < 50)) &&
  !(e.found && decide (e.confidence < (3 : ℚ)/10)) &&
  !(!e.found && decide ((1 : ℚ)/2 < e.confidence)) &&
  !(e.found && !(optStrTruthy e.content) && decide ((3 : ℚ)/5 < e.confidence))

/-- Full pydantic construction of an `Evidence`: `some` of the normalised
record when accepted, `none` when any validator raises. -/
def evidenceValidate (e : Evidence) : Option Evidence :=
  let e2 : Evidence :=
    { e with criterion_id := stripStr e.criterion_id,
             rationale := stripStr e.rationale }
  if evidenceFieldOk e && evidenceCriterionIdOk e.criterion_id &&
     evidenceRationaleOk e.rationale && evidenceModelOk e2
  then some e2
  else none

/-! ## Judicial opinion validation (`state.py` lines 129-231) -/

/-- Pydantic `Field` constraints of `JudicialOpinion`. -/
def opinionFieldOk (o : JudicialOpinion) : Bool :=
  (1 ≤ strLen o.criterion_id) && (strLen o.criterion_id ≤ 100) &&
  decide (1 ≤ o.score) && decide (o.score ≤ 5) &&
  (50 ≤ strLen o.argument) && (strLen o.argument ≤ 3000) &&
  (o.cited_evidence.length ≤ 20)

/-- `JudicialOpinion.validate_criterion_id`. -/
def opinionCriterionIdOk (v : String) : Bool :=
  !v.data.isEmpty && !(stripStr v).data.isEmpty && idPatternOk v

/-- Literals of the file-reference pattern in `validate_argument`
(case sensitive in the source). -/
def fileRefLiterals : List String :=
  ["src/", "tests/", ".py", ".md", ".json", ".toml", ".yaml"]

/-- Literals of the evidence-reference pattern in `validate_argument`
(matched with `re.IGNORECASE`). -/
def evidenceRefLiterals : List String :=
  ["evidence", "location", "criterion", "file", "found", "content"]

/-- `JudicialOpinion.validate_argument` (stored value is the stripped one). -/
def opinionArgumentOk (v : String) : Bool :=
  (50 ≤ strLen (stripStr v)) &&
  (containsAny v fileRefLiterals || containsAnyLower v evidenceRefLiterals)

/-- Critical keywords demanded of low-score arguments. -/
def criticalKeywords : List String :=
  ["missing", "failed", "error", "issue", "problem", "lack", "absent",
   "incomplete", "weak"]

/-- Positive keywords demanded of high-score arguments. -/
def positiveKeywords : List String :=
  ["good", "excellent", "proper", "correct", "complete", "well", "strong",
   "solid", "robust"]

/-- `JudicialOpinion.validate_score_argument_alignment` (model validator,
run on the stripped argument; the cited-evidence branch of the source is a
no-op). -/
def opinionModelOk (o : JudicialOpinion) : Bool :=
  (!(decide (o.score ≤ 2)) || containsAnyLower o.argument criticalKeywords) &&
  (!(decide (4 ≤ o.score)) || containsAnyLower o.argument positiveKeywords)

/-- Full pydantic construction of a `JudicialOpinion`. -/
def opinionValidate (o : JudicialOpinion) : Option JudicialOpinion :=
  let o2 : JudicialOpinion :=
    { o with criterion_id := stripStr o.criterion_id,
             argument := stripStr o.argument }
  if opinionFieldOk o && opinionCriterionIdOk o.criterion_id &&
     opinionArgumentOk o.argument && opinionModelOk o2
  then some o2
  else none

/-! ## Criterion result validation (`state.py` lines 237-386) -/

/-- Minimum of an integer list, 0 on the empty list (the source only applies
`min` to non-empty score lists). -/
def listMinD : List ℤ → ℤ
  | [] => 0
  | h :: t => t.foldl min h

/-- Maximum of an integer list, 0 on the empty list. -/
def listMaxD : List ℤ → ℤ
  | [] => 0
  | h :: t => t.foldl max h

/-- Sum of an integer list. -/
def listSum (l : List ℤ) : ℤ :=
  l.foldl (· + ·) 0

/-- Pydantic `Field` constraints of `CriterionResult` (the judge-opinions
list is constrained to length exactly 3). -/
def criterionFieldOk (r : CriterionResult) : Bool :=
  (1 ≤ strLen r.dimension_id) && (strLen r.dimension_id ≤ 100) &&
  (5 ≤ strLen r.dimension_name) && (strLen r.dimension_name ≤ 200) &&
  decide (1 ≤ r.final_score) && decide (r.final_score ≤ 5) &&
  (r.judge_opinions.length == 3) &&
  (match r.dissent_summary with
   | none => true
   | some d => strLen d ≤ 1000) &&
  (50 ≤ strLen r.remediation) && (strLen r.remediation ≤ 2000)

/-- `CriterionResult.validate_dimension_id`. -/
def dimensionIdOk (v : String) : Bool :=
  !v.data.isEmpty && !(stripStr v).data.isEmpty && idPatternOk v

/-- `CriterionResult.validate_judge_opinions`: exactly three opinions, one
from each judge, all about the same criterion, scores in range.  (Set
equality with the three-element judge set is presence of each persona.) -/
def judgeOpinionsOk (ops : List JudicialOpinion) : Bool :=
  (ops.length == 3) &&
  (ops.any (fun o => o.judge == Judge.Prosecutor)) &&
  (ops.any (fun o => o.judge == Judge.Defense)) &&
  (ops.any (fun o => o.judge == Judge.TechLead)) &&
  (match ops with
   | [] => true
   | o :: rest => rest.all (fun p => p.criterion_id == o.criterion_id)) &&
  decide (1 ≤ listMinD (ops.map (fun o => o.score))) &&
  decide (listMaxD (ops.map (fun o => o.score)) ≤ 5)

/-- Literals of the remediation file-path pattern (case sensitive). -/
def remediationFileLiterals : List String :=
  ["src/", "tests/", ".py", ".md", ".json", ".toml", ".yaml", ".yml"]

/-- Literals of the remediation action-word pattern (`re.IGNORECASE`). -/
def actionWordLiterals : List String :=
  ["add", "create", "update", "fix", "remove", "implement", "refactor",
   "modify", "improve", "enhance", "replace"]

/-- `CriterionResult.validate_remediation` (stored value is stripped). -/
def remediationOk (v : String) : Bool :=
  (50 ≤ strLen (stripStr v)) &&
  containsAny v remediationFileLiterals &&
  containsAnyLower v actionWordLiterals

/-- `CriterionResult.validate_dissent_summary` (model validator): dissent
text is mandatory (and at least 50 characters once stripped) when the score
spread exceeds 2; a final score outside the judges' range must stay within
1.5 of their mean. -/
def criterionModelOk (r : CriterionResult) : Bool :=
  let scores := r.judge_opinions.map (fun o => o.score)
  let variance := listMaxD scores - listMinD scores
  (!(decide (2 < variance) && !optStrTruthy r.dissent_summary)) &&
  (!(decide (2 < variance) && optStrTruthy r.dissent_summary &&
      decide (strLen (stripStr ((r.dissent_summary).getD "")) < 50))) &&
  (!((decide (r.final_score < listMinD scores) ||
      decide (listMaxD scores < r.final_score)) &&
     decide ((3 : ℚ)/2 <
       |(r.final_score : ℚ) - (listSum scores : ℚ) / (scores.length : ℚ)|)))

/-- Full pydantic construction of a `CriterionResult`.  Judge opinions are
already-constructed model instances and are not re-validated (pydantic
default); their own constructibility is `opinionValidate`. -/
def criterionValidate (r : CriterionResult) : Option CriterionResult :=
  let r2 : CriterionResult :=
    { r with dimension_id := stripStr r.dimension_id,
             remediation := stripStr r.remediation }
  if criterionFieldOk r && dimensionIdOk r.dimension_id &&
     judgeOpinionsOk r.judge_opinions && remediationOk r.remediation &&
     criterionModelOk r2
  then some r2
  else none

/-! ## Audit report validation (`state.py` lines 389-546) -/

/-- Pydantic `Field` constraints of `AuditReport`. -/
def auditFieldOk (r : AuditReport) : Bool :=
  (10 ≤ strLen r.repo_url) && (strLen r.repo_url ≤ 500) &&
  (100 ≤ strLen r.executive_summary) && (strLen r.executive_summary ≤ 5000) &&
  decide ((1 : ℚ) ≤ r.overall_score) && decide (r.overall_score ≤ 5) &&
  (1 ≤ r.criteria.length) &&
  (100 ≤ strLen r.remediation_plan) && (strLen r.remediation_plan ≤ 10000)

/-- `AuditReport.validate_repo_url`, with `urllib.parse.urlparse` modelled
for the `scheme://netloc/...` shapes this system passes in: the scheme is
the part before `://`, the netloc the part from there to the next slash.
Both must be non-empty and the scheme must be http or https. -/
def repoUrlOk (v : String) : Bool :=
  let s := stripStr v
  !s.data.isEmpty &&
  (match splitFirst s "://" with
   | none => false
   | some pr =>
     let scheme := pr.1
     let netloc : String := ⟨pr.2.data.takeWhile (fun c => c ≠ '/')⟩
     !scheme.data.isEmpty && !netloc.data.isEmpty &&
     ((lowerStr scheme == "http") || (lowerStr scheme == "https")))

/-- Mean of the criterion final scores, as in the source
`sum(criterion.final_score ...) / len(self.criteria)`. -/
def criteriaMean (l : List CriterionResult) : ℚ :=
  ((listSum (l.map (fun c => c.final_score)) : ℚ)) / (l.length : ℚ)

/-- `AuditReport.validate_overall_score_consistency` (model validator):
criteria non-empty, overall score within tolerance 0.5 of the criteria mean,
every criterion score in range. -/
def overallConsistencyOk (r : AuditReport) : Bool :=
  !r.criteria.isEmpty &&
  decide (|r.overall_score - criteriaMean r.criteria| ≤ (1 : ℚ)/2) &&
  r.criteria.all (fun c => decide (1 ≤ c.final_score) && decide (c.final_score ≤ 5))

/-- `AuditReport.validate_executive_summary`. -/
def executiveSummaryOk (v : String) : Bool :=
  (100 ≤ strLen (stripStr v)) &&
  containsAnyLower v ["score", "rating", "grade", "overall", "average"] &&
  containsAnyLower v
    ["finding", "issue", "problem", "strength", "weakness", "recommendation",
     "conclusion", "summary"]

/-- `AuditReport.validate_remediation_plan`. -/
def remediationPlanOk (v : String) : Bool :=
  (100 ≤ strLen (stripStr v)) &&
  containsAnyLower v
    ["priority", "critical", "high", "medium", "low", "urgent", "important",
     "severe", "major", "minor"] &&
  containsAnyLower v
    ["action", "step", "task", "implement", "fix", "add", "create", "update",
     "refactor", "improve"]

/-- Full pydantic construction of an `AuditReport` (criteria are
already-constructed instances, not re-validated). -/
def auditReportValidate (r : AuditReport) : Option AuditReport :=
  let r2 : AuditReport :=
    { r with repo_url := stripStr r.repo_url,
             executive_summary := stripStr r.executive_summary,
             remediation_plan := stripStr r.remediation_plan }
  if auditFieldOk r && repoUrlOk r.repo_url &&
     executiveSummaryOk r.executive_summary &&
     remediationPlanOk r.remediation_plan &&
     overallConsistencyOk r
  then some r2
  else none

/-! ## Exact model of the IEEE-754 double arithmetic used by the engine

The weighted-average rule of `_synthesize_score` is the only place where
float rounding is observable (every other rule returns integers).  All of
its intermediate values lie in the normal binades `[2^-8, 2^8)`, so a
double is an exact rational with a 53-bit significand and rounding to
nearest (ties to even) is expressible directly. -/

/-- Integer power of two as a rational. -/
def pow2 (e : ℤ) : ℚ :=
  if 0 ≤ e then ((2 ^ e.toNat : ℕ) : ℚ) else 1 / ((2 ^ (-e).toNat : ℕ) : ℚ)

/-- Round a rational to the nearest integer, ties to even (the rounding of
IEEE-754 and of Python `round`). -/
def rndHalfEven (x : ℚ) : ℤ :=
  let f := x.floor
  if x - (f : ℚ) < 1/2 then f
  else if (1 : ℚ)/2 < x - (f : ℚ) then f + 1
  else if f % 2 = 0 then f else f + 1

/-- Binade exponent: the largest `e` in `[-8, 8]` with `2^e ≤ q` (every
positive value handled here lies in `[2^-8, 2^8)`). -/
def binadeExp (q : ℚ) : ℤ :=
  (List.range 17).foldl
    (fun acc i => if pow2 ((i : ℤ) - 8) ≤ q then (i : ℤ) - 8 else acc) (-8)

/-- Round a rational to the nearest IEEE-754 double (normal range). -/
def dbl (q : ℚ) : ℚ :=
  if q = 0 then 0
  else if 0 < q then
    (rndHalfEven (q * pow2 (52 - binadeExp q)) : ℚ) * pow2 (binadeExp q - 52)
  else
    -((rndHalfEven (-q * pow2 (52 - binadeExp (-q))) : ℚ) *
      pow2 (binadeExp (-q) - 52))

/-- The double denoted by the Python literal `0.4`. -/
def w04 : ℚ := dbl (2/5)

/-- The double denoted by the Python literal `0.3`. -/
def w03 : ℚ := dbl (3/10)

/-- Python `round` applied to a double value. -/
def pyRound (x : ℚ) : ℤ := rndHalfEven x

/-! ## The synthesis engine (`src/nodes/justice.py`) -/

/-- The list of available scores, in the order
`[prosecutor_score, defense_score, tech_lead_score]` with the missing ones
dropped (`justice.py` line 167). -/
def presentScores (p d t : Option ℤ) : List ℤ :=
  [p, d, t].filterMap id

/-- The curated security-violation phrase list of `_synthesize_score`. -/
def securityViolationPhrases : List String :=
  ["os.system() call", "os.system() detected", "eval() call", "exec() call",
   "injection risk", "unsanitized input", "arbitrary command",
   "catastrophic security", "fundamentally unsafe"]

/-- The default weighted average of `_synthesize_score` (lines 218-236):
float accumulation of TechLead 0.4, Prosecutor 0.3, Defense 0.3 over the
personas present, rounded by Python `round` and clamped to `[1, 5]`.  Every
float operation is modelled by the exact correctly-rounded double. -/
def weightedAverageScore (p d t : Option ℤ) : ℤ :=
  let s0 : ℚ × ℚ := (0, 0)
  let s1 := match t with
    | some v => (dbl (s0.1 + dbl ((v : ℚ) * w04)), dbl (s0.2 + w04))
    | none => s0
  let s2 := match p with
    | some v => (dbl (s1.1 + dbl ((v : ℚ) * w03)), dbl (s1.2 + w03))
    | none => s1
  let s3 := match d with
    | some v => (dbl (s2.1 + dbl ((v : ℚ) * w03)), dbl (s2.2 + w03))
    | none => s2
  if 0 < s3.2 then
    max 1 (min 5 (pyRound (dbl (s3.1 / s3.2))))
  else
    -- unreachable fallback `round(sum(scores)/len(scores))`: the caller
    -- guarantees at least one score, which makes the weight total positive
    pyRound (dbl ((listSum (presentScores p d t) : ℚ) /
      ((presentScores p d t).length : ℚ)))

/-- `_synthesize_score` (`justice.py` lines 149-236): the deterministic rule
cascade.  Arguments mirror the Python signature (the unused synthesis-rules
dict is dropped); the prosecutor argument text is looked up in the opinion
list exactly as in the source. -/
def synthesizeScore (prosecutorScore defenseScore techLeadScore : Option ℤ)
    (opinions : List JudicialOpinion) (dimensionId : String) : ℤ :=
  let scores := presentScores prosecutorScore defenseScore techLeadScore
  if scores.isEmpty then 1
  else
    let prosecutorArg :=
      match opinions.find? (fun o => o.judge == Judge.Prosecutor) with
      | some op => lowerStr op.argument
      | none => ""
    let securityHit :=
      (match prosecutorScore with
       | some ps => decide (ps ≤ 2)
       | none => false) &&
      (securityViolationPhrases.any (fun ph => strContains prosecutorArg ph)) &&
      strContains dimensionId "safe_tool_engineering"
    if securityHit then min 3 (listMaxD scores)
    else
      let rule3 : Option ℤ :=
        if dimensionId == "graph_orchestration" then
          match techLeadScore with
          | some t =>
            if 4 ≤ t then some (listMaxD scores)
            else if t ≤ 2 then some (listMinD scores)
            else none
          | none => none
        else none
      match rule3 with
      | some v => v
      | none =>
        if 2 < listMaxD scores - listMinD scores then
          match techLeadScore with
          | some t =>
            if listMinD scores < t ∧ t < listMaxD scores then t
            else if listMinD scores < 3 then listMinD scores + 1
            else listMinD scores
          | none =>
            if listMinD scores < 3 then listMinD scores + 1
            else listMinD scores
        else weightedAverageScore prosecutorScore defenseScore techLeadScore

/-- Opinions of one criterion, in arrival order (`chief_justice_node`
groups by criterion id preserving order, then looks the dimension up). -/
def opinionsFor (ops : List JudicialOpinion) (dimId : String) :
    List JudicialOpinion :=
  ops.filter (fun o => o.criterion_id == dimId)

/-- Score of the first opinion of a given judge, as the
`next((op.score for op in ...), None)` extraction of `chief_justice_node`. -/
def firstScoreOf (ops : List JudicialOpinion) (j : Judge) : Option ℤ :=
  (ops.find? (fun o => o.judge == j)).map (fun o => o.score)

/-- Final score computed by `chief_justice_node` for one rubric dimension:
1 when no opinions (or no scores) exist, otherwise the synthesis cascade. -/
def dimensionFinalScore (ops : List JudicialOpinion) (dimId : String) : ℤ :=
  let copinions := opinionsFor ops dimId
  if copinions.isEmpty then 1
  else
    let p := firstScoreOf copinions Judge.Prosecutor
    let d := firstScoreOf copinions Judge.Defense
    let t := firstScoreOf copinions Judge.TechLead
    if (presentScores p d t).isEmpty then 1
    else synthesizeScore p d t copinions dimId

/-- Score variance computed by `chief_justice_node` (lines 87-91): spread of
the available per-judge scores when at least two are present, else 0. -/
def dimensionScoreVariance (copinions : List JudicialOpinion) : ℤ :=
  let p := firstScoreOf copinions Judge.Prosecutor
  let d := firstScoreOf copinions Judge.Defense
  let t := firstScoreOf copinions Judge.TechLead
  let scores := presentScores p d t
  if 2 ≤ scores.length then listMaxD scores - listMinD scores else 0

/-- Whether `chief_justice_node` attaches a dissent summary on the
with-opinions path (lines 93-96): exactly when the variance exceeds 2.  The
summary text itself (`_generate_dissent_summary`) is always a non-empty
string; no claim depends on its content, so only presence is modelled. -/
def chiefDissentPresent (copinions : List JudicialOpinion) : Bool :=
  decide (2 < dimensionScoreVariance copinions)

/-- The `CriterionResult` candidate built by `chief_justice_node` for a
dimension with no opinions (`justice.py` lines 49-56). -/
def noOpinionsResult (dimId dimName : String) : CriterionResult :=
  { dimension_id := dimId,
    dimension_name := dimName,
    final_score := 1,
    judge_opinions := [],
    dissent_summary :=
      some "No judicial opinions were rendered for this criterion.",
    remediation :=
      "Implement " ++ dimName ++ " according to the rubric requirements." }

/-- Per-dimension final scores of the whole chief-justice loop, one per
rubric dimension in rubric order. -/
def chiefScores (dims : List String) (ops : List JudicialOpinion) : List ℤ :=
  dims.map (fun d => dimensionFinalScore ops d)

/-- The running `total_score` accumulated by the loop, modelled exactly as
the fold it is (integer increments are exact in floating point). -/
def chiefTotal (dims : List String) (ops : List JudicialOpinion) : ℚ :=
  dims.foldl (fun acc d => acc + (dimensionFinalScore ops d : ℚ)) 0

/-- `overall_score = total_score / len(rubric_dimensions)` (line 116),
1.0 for an empty rubric. -/
def chiefOverall (dims : List String) (ops : List JudicialOpinion) : ℚ :=
  if dims.isEmpty then 1 else chiefTotal dims ops / (dims.length : ℚ)

/-! ## Evidence collection error paths (`src/nodes/detectives.py`) -/

/-- The zero-confidence Evidence record that `repo_investigator_node` builds
when a single forensic protocol throws (lines 518-529).  Single quotes do
not occur in these messages; the Python exception is represented by its
class name and message. -/
def protocolFailureEvidence (dimId errType errMsg repoUrl : String) :
    Evidence :=
  { criterion_id := dimId,
    goal := "Forensic protocol for " ++ dimId,
    found := false,
    content := some ("Error: " ++ errMsg),
    location := repoUrl,
    rationale := "Protocol failed: " ++ errType ++ ": " ++ errMsg,
    confidence := 0 }

/-- `pathlib.Path(p).name`: the part after the last slash (for the plain
slash-separated paths without trailing slash that the aggregator sees). -/
def pathBaseName (p : String) : String :=
  ⟨p.data.foldl (fun acc c => if c = '/' then [] else acc ++ [c]) []⟩

/-- The hallucination Evidence record synthesised by
`evidence_aggregator_node` for one unmatched claimed path (lines
1081-1092).  `walkVerified` is whether the cloned repository could be
walked on disk (confidence 0.85) rather than only matching prior evidence
location strings (confidence 0.6); `knownCount` is the number of known
filenames.  Single quotes of the source messages are elided (they do not
affect any validator verdict other than by two characters of length). -/
def hallucinationEvidence (claimedPath : String) (walkVerified : Bool)
    (knownCount : ℕ) : Evidence :=
  { criterion_id := "report_accuracy",
    goal := "HALLUCINATION: Report claims " ++ claimedPath ++ " exists",
    found := false,
    content := some claimedPath,
    location := "cross_ref:" ++ claimedPath,
    rationale := "Filename " ++ pathBaseName claimedPath ++
      " not found in repo. Verified against " ++ toString knownCount ++
      " known files.",
    confidence := if walkVerified then 17/20 else 3/5 }

/-- The per-path hallucination records produced by the cross-referencing
step: one for each claimed path whose basename matches no known filename
(lines 1072-1092). -/
def crossRefHallucinations (claimedPaths actualFilenames : List String)
    (walkVerified : Bool) : List Evidence :=
  (claimedPaths.filter
      (fun p => !actualFilenames.contains (pathBaseName p))).map
    (fun p => hallucinationEvidence p walkVerified actualFilenames.length)

/-- The trailing summary record aggregating the hallucination count
(lines 1098-1113); content is a JSON dump, modelled by its key fields. -/
def crossRefSummaryEvidence (hallucinationCount knownCount : ℕ)
    (walkVerified : Bool) : Evidence :=
  { criterion_id := "report_accuracy",
    goal := "Cross-reference summary",
    found := true,
    content := some ("hallucinated_count: " ++ toString hallucinationCount),
    location := "cross_ref:summary",
    rationale := "Found " ++ toString hallucinationCount ++
      " file paths in the PDF report that do not match any of " ++
      toString knownCount ++ " files in the repo (verified via " ++
      (if walkVerified then "filesystem scan" else "evidence locations") ++
      ").",
    confidence := if walkVerified then 9/10 else 7/10 }

/-! ## Supporting definitions for the claim theorems -/

/-- Scores are integers 1..5; an optional persona score either absent or in
range. -/
def scoreOpt : Option ℤ → Prop
  | none => True
  | some s => 1 ≤ s ∧ s ≤ 5

/-- Encode an optional 1..5 score by an optional `Fin 5` (used to decide
finite-domain statements about the weighted average). -/
def liftScore (a : Option (Fin 5)) : Option ℤ :=
  a.map (fun i => ((i : ℕ) : ℤ) + 1)

/-- The exact (infinite-precision) renormalized weighted mean with weights
TechLead 0.4, Prosecutor 0.3, Defense 0.3 over the personas present. -/
def exactWeightedMean (p d t : Option ℤ) : ℚ :=
  ((match t with | some v => (v : ℚ) * (2/5) | none => 0) +
   (match p with | some v => (v : ℚ) * (3/10) | none => 0) +
   (match d with | some v => (v : ℚ) * (3/10) | none => 0)) /
  ((if t.isSome then (2 : ℚ)/5 else 0) +
   (if p.isSome then (3 : ℚ)/10 else 0) +
   (if d.isSome then (3 : ℚ)/10 else 0))

/-- Round to the nearest integer, halves upward; on the nonnegative values
involved this is exactly round-half-away-from-zero. -/
def nearestHalfUp (q : ℚ) : ℤ :=
  (q + 1/2).floor

/-- Follows the words of the spec (§4.2 rule 5): weighted mean renormalized
over the present personas, rounded half-away-from-zero, clamped to [1,5].
Stated for comparison with the source-derived `weightedAverageScore`. -/
def specHalfAwayWeightedScore (p d t : Option ℤ) : ℤ :=
  max 1 (min 5 (nearestHalfUp (exactWeightedMean p d t)))

/-- Prosecutor opinion with an actual violation phrase (claim scenario:
score 1, argument containing the phrase from the curated list). -/
def opSecViolation : JudicialOpinion :=
  { judge := Judge.Prosecutor,
    criterion_id := "safe_tool_engineering",
    score := 1,
    argument := "Critical problem: os.system() detected in src/tools/repo_tools.py, running on unsanitized input.",
    cited_evidence := ["src/tools/repo_tools.py"] }

/-- Prosecutor opinion with a violation phrase at score 2 (for the contrast
pair at equal scores). -/
def opSecViolationTwo : JudicialOpinion :=
  { judge := Judge.Prosecutor,
    criterion_id := "safe_tool_engineering",
    score := 2,
    argument := "There is an injection risk in src/tools/repo_tools.py; this issue must be fixed before release.",
    cited_evidence := ["src/tools/repo_tools.py"] }

/-- Prosecutor opinion that mentions security without any violation phrase
(score 2, critical language, no phrase from the curated list). -/
def opSecPraise : JudicialOpinion :=
  { judge := Judge.Prosecutor,
    criterion_id := "safe_tool_engineering",
    score := 2,
    argument := "The security documentation has gaps; several issues remain in src/tools/security_utils.py unresolved.",
    cited_evidence := ["src/tools/security_utils.py"] }

/-- Prosecutor opinion, score 3, for the all-agree trio. -/
def opAgreeP : JudicialOpinion :=
  { judge := Judge.Prosecutor,
    criterion_id := "state_management_rigor",
    score := 3,
    argument := "The file src/state.py shows a workable structure; the evidence found there is acceptable overall.",
    cited_evidence := ["src/state.py"] }

/-- Defense opinion, score 3, for the all-agree trio. -/
def opAgreeD : JudicialOpinion :=
  { judge := Judge.Defense,
    criterion_id := "state_management_rigor",
    score := 3,
    argument := "Effort is visible throughout src/state.py and the validation evidence there is reasonable in scope.",
    cited_evidence := ["src/state.py"] }

/-- TechLead opinion, score 3, for the all-agree trio. -/
def opAgreeT : JudicialOpinion :=
  { judge := Judge.TechLead,
    criterion_id := "state_management_rigor",
    score := 3,
    argument := "State handling in src/state.py works in practice; the reducer evidence is adequate for this criterion.",
    cited_evidence := ["src/state.py"] }

/-- A fully validated CriterionResult whose judges agree (spread 0) yet
which carries a dissent summary: the validator accepts it. -/
def dissentDespiteAgreement : CriterionResult :=
  { dimension_id := "state_management_rigor",
    dimension_name := "State Management Rigor",
    final_score := 3,
    judge_opinions := [opAgreeP, opAgreeD, opAgreeT],
    dissent_summary :=
      some "The judges were in close agreement on this criterion, yet a dissent note was still recorded here.",
    remediation :=
      "Update src/state.py to add stricter field validators and improve the reducer annotations there." }

/-- Prosecutor opinion, score 1, for the high-variance trio. -/
def opVarP : JudicialOpinion :=
  { judge := Judge.Prosecutor,
    criterion_id := "graph_orchestration",
    score := 1,
    argument := "The code in src/graph.py is missing reducers; this problem makes the parallel writes unsafe and weak.",
    cited_evidence := ["src/graph.py"] }

/-- Defense opinion, score 5, for the high-variance trio. -/
def opVarD : JudicialOpinion :=
  { judge := Judge.Defense,
    criterion_id := "graph_orchestration",
    score := 5,
    argument := "Excellent effort is visible in src/graph.py; the design is well structured and the intent is strong.",
    cited_evidence := ["src/graph.py"] }

/-- TechLead opinion, score 3, for the high-variance trio. -/
def opVarT : JudicialOpinion :=
  { judge := Judge.TechLead,
    criterion_id := "graph_orchestration",
    score := 3,
    argument := "The graph in src/graph.py runs, though the evidence for fan-in behaviour is thin for this criterion.",
    cited_evidence := ["src/graph.py"] }

/-- A fully validated CriterionResult with spread 4 and the mandatory
dissent summary present. -/
def variedResult : CriterionResult :=
  { dimension_id := "graph_orchestration",
    dimension_name := "Graph Orchestration",
    final_score := 3,
    judge_opinions := [opVarP, opVarD, opVarT],
    dissent_summary :=
      some "The Prosecutor found the orchestration absent while the Defense praised the design; the Tech Lead took a middle view.",
    remediation :=
      "Fix src/graph.py to add Annotated reducers for evidences and opinions so parallel branches merge safely." }

/-- A concrete Evidence record the validator accepts (used to witness the
confidence coupling). -/
def evGitLog : Evidence :=
  { criterion_id := "git_forensic_analysis",
    goal := "Verify commit history depth and development progression",
    found := true,
    content := some "commit 1a2b3c",
    location := "/tmp/auditor_repo_x/repo",
    rationale := "Extracted git log with 42 commits and analyzed the progression of the work across branches.",
    confidence := 9/10 }

/-- A criterion record with the minimum final score (report-level witness
material; the report validator does not re-validate nested instances). -/
def lowCriterion : CriterionResult :=
  { dimension_id := "state_management_rigor",
    dimension_name := "State Management Rigor",
    final_score := 1,
    judge_opinions := [opAgreeP, opAgreeD, opAgreeT],
    dissent_summary := none,
    remediation :=
      "Update src/state.py to add validators and reducers for every field written by parallel branches." }

/-- An AuditReport whose overall score (5) drifts far from its criteria
mean (1); the validator must reject it. -/
def skewedReport : AuditReport :=
  { repo_url := "https://github.com/acme/widget",
    executive_summary :=
      "Overall score 5.00 out of 5. Key findings: the audit recorded a single criterion at the minimum score, so this summary badly overstates the result.",
    overall_score := 5,
    criteria := [lowCriterion],
    remediation_plan :=
      "Priority 1: critical issues. Action: implement reducers in src/state.py and fix the overall score computation so that it matches the criteria." }

/-! ## Helper lemmas -/

theorem foldl_add_shift_int (l : List ℤ) :
    ∀ a : ℤ, l.foldl (· + ·) a = a + l.foldl (· + ·) 0 := by
  induction l with
  | nil => intro a; simp
  | cons x t ih => intro a; simp only [List.foldl_cons]; rw [ih (a + x), ih (0 + x)]; ring

theorem listSum_cons (x : ℤ) (l : List ℤ) : listSum (x :: l) = x + listSum l := by
  simp only [listSum, List.foldl_cons]
  rw [foldl_add_shift_int l (0 + x)]
  ring

theorem foldl_add_shift_rat (f : String → ℚ) (l : List String) :
    ∀ a : ℚ, l.foldl (fun acc x => acc + f x) a = a + l.foldl (fun acc x => acc + f x) 0 := by
  induction l with
  | nil => intro a; simp
  | cons x t ih => intro a; simp only [List.foldl_cons]; rw [ih (a + f x), ih (0 + f x)]; ring

/-- The float accumulator of the chief-justice loop equals the integer sum
of the per-dimension final scores (integer increments are exact). -/
theorem chiefTotal_eq_sum (dims : List String) (ops : List JudicialOpinion) :
    chiefTotal dims ops = (listSum (chiefScores dims ops) : ℚ) := by
  induction dims with
  | nil => simp [chiefTotal, chiefScores, listSum]
  | cons dHead dTail ih =>
    simp only [chiefTotal, List.foldl_cons] at *
    rw [foldl_add_shift_rat (fun x => (dimensionFinalScore ops x : ℚ)) dTail]
    rw [ih]
    simp only [chiefScores, List.map_cons, listSum_cons]
    push_cast
    ring

/-- Encoding of an in-range optional score by an optional `Fin 5`. -/
theorem scoreOptRep :
    ∀ o : Option ℤ, scoreOpt o → ∃ a : Option (Fin 5), o = liftScore a := by
  intro o h
  cases o with
  | none => exact ⟨none, rfl⟩
  | some s =>
    obtain ⟨h1, h5⟩ := h
    have hcases : s = 1 ∨ s = 2 ∨ s = 3 ∨ s = 4 ∨ s = 5 := by omega
    rcases hcases with rfl | rfl | rfl | rfl | rfl
    · exact ⟨some ⟨0, by omega⟩, by decide⟩
    · exact ⟨some ⟨1, by omega⟩, by decide⟩
    · exact ⟨some ⟨2, by omega⟩, by decide⟩
    · exact ⟨some ⟨3, by omega⟩, by decide⟩
    · exact ⟨some ⟨4, by omega⟩, by decide⟩

set_option maxRecDepth 8000 in
/-- Finite-domain check of the amended weighted-average property over every
combination of present scores. -/
theorem weightedAverageFinCheck :
    ∀ a b c : Option (Fin 5),
      (a.isSome || b.isSome || c.isSome) = true →
      (1 ≤ weightedAverageScore (liftScore a) (liftScore b) (liftScore c) ∧
       weightedAverageScore (liftScore a) (liftScore b) (liftScore c) ≤ 5 ∧
       (exactWeightedMean (liftScore a) (liftScore b) (liftScore c) -
          (exactWeightedMean (liftScore a) (liftScore b) (liftScore c)).floor ≠ 1/2 →
        weightedAverageScore (liftScore a) (liftScore b) (liftScore c) =
          nearestHalfUp
            (exactWeightedMean (liftScore a) (liftScore b) (liftScore c)))) := by
  decide

/-! ## Claim theorems -/

/-- C1: the chief-justice loop does produce one score per rubric dimension
in rubric order, but for a dimension with no opinions the
`CriterionResult` it builds (empty `judge_opinions`, fixed dissent
sentence, generic remediation) is rejected by the model's validators: the
construction raises instead of yielding the claimed minimal result, so the
node crashes rather than emitting a complete report. -/
theorem C1_report_completeness_and_no_opinions_rejection :
    (∀ (dims : List String) (ops : List JudicialOpinion),
      (chiefScores dims ops).length = dims.length) ∧
    criterionValidate
      (noOpinionsResult "state_management_rigor" "State Management Rigor") =
      none :=
  ⟨fun dims ops => by simp [chiefScores], by decide⟩

set_option maxRecDepth 4000 in
/-- C2 (counterexample): a fully validated `CriterionResult` can carry a
dissent summary although its three judges agree exactly (spread 0), so
dissent presence is not equivalent to spread exceeding 2. -/
theorem C2_dissent_without_variance_accepted :
    opinionValidate opAgreeP = some opAgreeP ∧
    opinionValidate opAgreeD = some opAgreeD ∧
    opinionValidate opAgreeT = some opAgreeT ∧
    criterionValidate dissentDespiteAgreement = some dissentDespiteAgreement ∧
    dissentDespiteAgreement.dissent_summary ≠ none ∧
    listMaxD (dissentDespiteAgreement.judge_opinions.map (fun o => o.score)) -
      listMinD (dissentDespiteAgreement.judge_opinions.map (fun o => o.score)) =
      0 := by
  decide

/-- C2 (amended): the construction boundary enforces only one direction of
the dissent invariant: every `CriterionResult` accepted by the validators
whose score spread exceeds 2 has a dissent summary; dissent may also be
present when the spread is 2 or less. -/
theorem C2_dissent_required_direction :
    ∀ r r2 : CriterionResult, criterionValidate r = some r2 →
      2 < listMaxD (r2.judge_opinions.map (fun o => o.score)) -
          listMinD (r2.judge_opinions.map (fun o => o.score)) →
      r2.dissent_summary ≠ none := by
  intro r r2 h hvar
  simp only [criterionValidate] at h
  split at h
  case isTrue hc =>
    rw [Option.some.injEq] at h
    rw [h] at hc
    have hm : criterionModelOk r2 = true := by
      simp only [Bool.and_eq_true] at hc
      exact hc.2
    simp only [criterionModelOk, Bool.and_eq_true] at hm
    obtain ⟨h1, -⟩ := hm
    intro hnone
    rw [hnone] at h1
    simp only [optStrTruthy, Bool.not_false, Bool.and_true, Bool.not_eq_true',
      decide_eq_false_iff_not, not_lt] at h1
    omega
  case isFalse => exact absurd h (by simp)

/-- C2 (witness): a validated result with spread 4 indeed carries its
mandatory dissent summary. -/
theorem C2_dissent_required_direction_witness :
    variedResult.dissent_summary ≠ none :=
  C2_dissent_required_direction variedResult variedResult
    (by set_option maxRecDepth 4000 in decide)
    (by decide)

/-- C3: on the tool-safety dimension, whenever the Prosecutor scores at
most 2 and the Prosecutor argument contains one of the curated violation
phrases, the synthesis returns `min 3 (max of the available scores)`;
concretely, Prosecutor 1 with an argument containing the os.system
detection phrase and other scores [5,5] yields 3, a phrase at Prosecutor 2
with scores [5,4] yields 3, while the same scores with an argument that
merely mentions security (no violation phrase) yield 4 instead. -/
theorem C3_security_override :
    (∀ (ps : ℤ) (d t : Option ℤ) (ops : List JudicialOpinion)
        (dim : String) (op : JudicialOpinion),
      ops.find? (fun o => o.judge == Judge.Prosecutor) = some op →
      ps ≤ 2 →
      securityViolationPhrases.any
        (fun ph => strContains (lowerStr op.argument) ph) = true →
      strContains dim "safe_tool_engineering" = true →
      synthesizeScore (some ps) d t ops dim =
        min 3 (listMaxD (presentScores (some ps) d t))) ∧
    synthesizeScore (some 1) (some 5) (some 5) [opSecViolation]
      "safe_tool_engineering" = 3 ∧
    synthesizeScore (some 2) (some 5) (some 4) [opSecViolationTwo]
      "safe_tool_engineering" = 3 ∧
    synthesizeScore (some 2) (some 5) (some 4) [opSecPraise]
      "safe_tool_engineering" = 4 := by
  refine ⟨?_, by decide, by decide, by decide⟩
  intro ps d t ops dim op hfind hps hph hdim
  have hps2 : decide (ps ≤ 2) = true := decide_eq_true hps
  simp only [synthesizeScore, presentScores, List.filterMap_cons, id, hfind,
    hps2, hph, hdim, Bool.and_self, Bool.and_true, Bool.true_and,
    List.isEmpty_cons, Bool.false_eq_true, if_false, if_true]

/-- C3 (witness): the general security-override rule applied at the
concrete claim scenario. -/
theorem C3_security_override_witness :
    synthesizeScore (some 1) (some 5) (some 5) [opSecViolation]
      "safe_tool_engineering" =
      min 3 (listMaxD (presentScores (some 1) (some 5) (some 5))) :=
  C3_security_override.1 1 (some 5) (some 5) [opSecViolation]
    "safe_tool_engineering" opSecViolation (by decide) (by decide)
    (by decide) (by decide)

/-- C4: when neither the security override nor the functionality-weight
rule can fire (a dimension that is not tool-safety and not
graph-orchestration) and the spread of the available scores exceeds 2, the
final score is the TechLead score when strictly between min and max, and
otherwise `min + 1` when `min < 3`, else `min`; concretely opinions
[1, 5, 3] with TechLead 3 yield 3. -/
theorem C4_variance_reevaluation :
    (∀ (p d t : Option ℤ) (ops : List JudicialOpinion) (dim : String),
      strContains dim "safe_tool_engineering" = false →
      dim ≠ "graph_orchestration" →
      2 < listMaxD (presentScores p d t) - listMinD (presentScores p d t) →
      synthesizeScore p d t ops dim =
        (match t with
         | some ts =>
           if listMinD (presentScores p d t) < ts ∧
              ts < listMaxD (presentScores p d t)
           then ts
           else if listMinD (presentScores p d t) < 3
           then listMinD (presentScores p d t) + 1
           else listMinD (presentScores p d t)
         | none =>
           if listMinD (presentScores p d t) < 3
           then listMinD (presentScores p d t) + 1
           else listMinD (presentScores p d t))) ∧
    synthesizeScore (some 1) (some 5) (some 3) [] "state_management_rigor" =
      3 := by
  refine ⟨?_, by decide⟩
  intro p d t ops dim hsec hdim hvar
  have hne : (presentScores p d t).isEmpty = false := by
    rcases hsc : presentScores p d t with _ | ⟨x, l⟩
    · rw [hsc] at hvar
      simp [listMaxD, listMinD] at hvar
    · simp
  have hbeq : (dim == "graph_orchestration") = false :=
    beq_eq_false_iff_ne.mpr hdim
  simp only [synthesizeScore, hne, hsec, hbeq, Bool.and_false,
    Bool.false_eq_true, if_false, if_pos hvar]

/-- C5 (counterexample): with Prosecutor 2 and Defense 3 (TechLead absent)
the renormalized weighted mean is exactly 2.5; the spec half-away rounding
demands 3, but the engine (Python `round` over double-precision
intermediates) returns 2. -/
theorem C5_half_rounds_down_counterexample :
    synthesizeScore (some 2) (some 3) none [] "state_management_rigor" = 2 ∧
    exactWeightedMean (some 2) (some 3) none = 5/2 ∧
    specHalfAwayWeightedScore (some 2) (some 3) none = 3 := by
  decide

/-- C5 (amended): the default rule is the renormalized weighted mean with
weights TechLead 0.4, Prosecutor 0.3, Defense 0.3, clamped into [1,5]; when
the exact mean is not a half-integer the result is the nearest integer, but
at half-integer means the tie is resolved by the double-precision rounding
of Python `round`, not by rounding half away from zero. -/
theorem C5_weighted_average_amended :
    ∀ p d t : Option ℤ, scoreOpt p → scoreOpt d → scoreOpt t →
      ¬(p = none ∧ d = none ∧ t = none) →
      (1 ≤ weightedAverageScore p d t ∧ weightedAverageScore p d t ≤ 5 ∧
       (exactWeightedMean p d t - (exactWeightedMean p d t).floor ≠ 1/2 →
        weightedAverageScore p d t =
          nearestHalfUp (exactWeightedMean p d t))) := by
  intro p d t hp hd ht hne
  obtain ⟨a, rfl⟩ := scoreOptRep p hp
  obtain ⟨b, rfl⟩ := scoreOptRep d hd
  obtain ⟨c, rfl⟩ := scoreOptRep t ht
  apply weightedAverageFinCheck
  rcases a with _ | a <;> rcases b with _ | b <;> rcases c with _ | c <;>
    simp_all [liftScore]

/-- C5 (witness): the amended statement applied at three present scores
[3,3,3], whose exact mean 3 is not a tie. -/
theorem C5_weighted_average_amended_witness :
    1 ≤ weightedAverageScore (some 3) (some 3) (some 3) ∧
    weightedAverageScore (some 3) (some 3) (some 3) ≤ 5 ∧
    (exactWeightedMean (some 3) (some 3) (some 3) -
       (exactWeightedMean (some 3) (some 3) (some 3)).floor ≠ 1/2 →
     weightedAverageScore (some 3) (some 3) (some 3) =
       nearestHalfUp (exactWeightedMean (some 3) (some 3) (some 3))) :=
  C5_weighted_average_amended (some 3) (some 3) (some 3)
    ⟨by decide, by decide⟩ ⟨by decide, by decide⟩ ⟨by decide, by decide⟩
    (by simp)

set_option maxRecDepth 4000 in
/-- C6: for a documentation path whose filename matches no known file, the
cross-referencing step builds exactly the claimed Evidence record — found
false, confidence 0.85 after a filesystem walk and strictly lower (0.6)
when only evidence strings were matched — but the Evidence validator
rejects records with found false and confidence above 0.5, so the
construction raises instead of succeeding. -/
theorem C6_hallucination_evidence_rejected :
    crossRefHallucinations ["src/ghost.py"] ["main.py", "graph.py"] true =
      [hallucinationEvidence "src/ghost.py" true 2] ∧
    (hallucinationEvidence "src/ghost.py" true 2).found = false ∧
    (hallucinationEvidence "src/ghost.py" true 2).confidence = 17/20 ∧
    (hallucinationEvidence "src/ghost.py" false 2).confidence = 3/5 ∧
    (hallucinationEvidence "src/ghost.py" false 2).confidence <
      (hallucinationEvidence "src/ghost.py" true 2).confidence ∧
    evidenceValidate (hallucinationEvidence "src/ghost.py" true 2) = none ∧
    evidenceValidate (hallucinationEvidence "src/ghost.py" false 2) = none := by
  decide

/-- C7: the zero-confidence Evidence record built when a forensic check
throws carries the error class and message, but for a generic error such as
RuntimeError("boom") its rationale contains no forensic-method keyword, so
the Evidence validator rejects the record: the conversion itself raises
inside the handler instead of isolating the failure. -/
theorem C7_error_evidence_rejected :
    (protocolFailureEvidence "graph_orchestration" "RuntimeError" "boom"
        "https://github.com/acme/widget").confidence = 0 ∧
    (protocolFailureEvidence "graph_orchestration" "RuntimeError" "boom"
        "https://github.com/acme/widget").found = false ∧
    evidenceValidate
      (protocolFailureEvidence "graph_orchestration" "RuntimeError" "boom"
        "https://github.com/acme/widget") = none := by
  decide

/-- C8: the chief-justice overall score is exactly the arithmetic mean of
the per-dimension final scores (the float accumulator adds integers, which
is exact), and the report validator rejects any AuditReport whose overall
score differs from the mean of its criteria scores by more than the 0.5
tolerance. -/
theorem C8_overall_score_mean_and_tolerance :
    (∀ (dims : List String) (ops : List JudicialOpinion), dims ≠ [] →
      chiefOverall dims ops =
        (listSum (chiefScores dims ops) : ℚ) / (dims.length : ℚ)) ∧
    (∀ r : AuditReport,
      ¬(|r.overall_score - criteriaMean r.criteria| ≤ (1 : ℚ)/2) →
      auditReportValidate r = none) := by
  constructor
  · intro dims ops hne
    have hempty : dims.isEmpty = false := by
      simpa [List.isEmpty_iff] using hne
    rw [chiefOverall, hempty, if_neg (by simp), chiefTotal_eq_sum]
  · intro r h
    have hdec : decide (|r.overall_score - criteriaMean r.criteria| ≤ (1 : ℚ)/2) =
        false := decide_eq_false h
    simp only [auditReportValidate, overallConsistencyOk, hdec, Bool.false_and,
      Bool.and_false, Bool.false_eq_true, if_false]

/-- C8 (witness): the mean identity applied at a two-dimension rubric with
no opinions, and the rejection applied at a report whose overall score 5
drifts from its criteria mean 1. -/
theorem C8_overall_score_mean_and_tolerance_witness :
    chiefOverall ["graph_orchestration", "state_management_rigor"] [] =
      (listSum (chiefScores ["graph_orchestration", "state_management_rigor"]
          []) : ℚ) /
        ((["graph_orchestration", "state_management_rigor"].length : ℕ) : ℚ) ∧
    auditReportValidate skewedReport = none :=
  ⟨C8_overall_score_mean_and_tolerance.1
      ["graph_orchestration", "state_management_rigor"] [] (by decide),
   C8_overall_score_mean_and_tolerance.2 skewedReport (by decide)⟩

/-- C9 (counterexample): for a dimension with no opinions the engine does
not produce any `CriterionResult` (the validators reject the candidate), so
no record carrying a `rules_fired` audit trail of `["no_opinions_default"]`
exists; the source `CriterionResult` model has no such field at all. -/
theorem C9_no_opinions_yields_no_result :
    criterionValidate
      (noOpinionsResult "structured_output_enforcement"
        "Structured Output Enforcement") = none := by
  decide

/-- C9 (amended): `CriterionResult` records no rule-name audit trail; on a
non-special dimension three opinions scored [3,3,3] synthesize — via the
weighted-average default — to final score 3 with no dissent summary. -/
theorem C9_weighted_average_trio_amended :
    dimensionFinalScore [opAgreeP, opAgreeD, opAgreeT]
      "state_management_rigor" = 3 ∧
    chiefDissentPresent
      (opinionsFor [opAgreeP, opAgreeD, opAgreeT] "state_management_rigor") =
      false := by
  decide

/-- C10: every Evidence record accepted by the validators couples found
with confidence: found implies confidence at least 0.3, not-found implies
confidence at most 0.5, and confidence above 0.7 implies a stored rationale
of at least 50 characters. -/
theorem C10_confidence_coupling :
    ∀ e e2 : Evidence, evidenceValidate e = some e2 →
      (e2.found = true → (3 : ℚ)/10 ≤ e2.confidence) ∧
      (e2.found = false → e2.confidence ≤ (1 : ℚ)/2) ∧
      ((7 : ℚ)/10 < e2.confidence → 50 ≤ strLen e2.rationale) := by
  intro e e2 h
  simp only [evidenceValidate] at h
  split at h
  case isTrue hc =>
    rw [Option.some.injEq] at h
    rw [h] at hc
    have hm : evidenceModelOk e2 = true := by
      simp only [Bool.and_eq_true] at hc
      exact hc.2
    simp only [evidenceModelOk, Bool.and_eq_true, Bool.not_eq_true',
      Bool.and_eq_false_iff, decide_eq_false_iff_not, not_lt] at hm
    obtain ⟨⟨⟨h1, h2⟩, h3⟩, -⟩ := hm
    refine ⟨?_, ?_, ?_⟩
    · intro hf
      rcases h2 with h2a | h2b
      · rw [hf] at h2a
        simp at h2a
      · exact h2b
    · intro hf
      rcases h3 with h3a | h3b
      · rw [hf] at h3a
        simp at h3a
      · exact h3b
    · intro h7
      rcases h1 with h1a | h1b
      · exact absurd h7 (not_lt.mpr h1a)
      · exact h1b
  case isFalse => exact absurd h (by simp)

/-- C10 (witness): the coupling holds of a concrete accepted record with
found true and confidence 0.9. -/
theorem C10_confidence_coupling_witness :
    (evGitLog.found = true → (3 : ℚ)/10 ≤ evGitLog.confidence) ∧
    (evGitLog.found = false → evGitLog.confidence ≤ (1 : ℚ)/2) ∧
    ((7 : ℚ)/10 < evGitLog.confidence → 50 ≤ strLen evGitLog.rationale) :=
  C10_confidence_coupling evGitLog evGitLog (by decide)

/-- C4 (witness): the variance rule applied at the concrete opinions
[1, 5, 3]: the TechLead score 3 lies strictly between 1 and 5. -/
theorem C4_variance_reevaluation_witness :
    synthesizeScore (some 1) (some 5) (some 3) [] "state_management_rigor" =
      (match (some 3 : Option ℤ) with
       | some ts =>
         if listMinD (presentScores (some 1) (some 5) (some 3)) < ts ∧
            ts < listMaxD (presentScores (some 1) (some 5) (some 3))
         then ts
         else if listMinD (presentScores (some 1) (some 5) (some 3)) < 3
         then listMinD (presentScores (some 1) (some 5) (some 3)) + 1
         else listMinD (presentScores (some 1) (some 5) (some 3))
       | none =>
         if listMinD (presentScores (some 1) (some 5) (some 3)) < 3
         then listMinD (presentScores (some 1) (some 5) (some 3)) + 1
         else listMinD (presentScores (some 1) (some 5) (some 3))) :=
  C4_variance_reevaluation.1 (some 1) (some 5) (some 3) []
    "state_management_rigor" (by decide) (by decide) (by decide)
